import Mathlib

/-!
Verification of the Fuel-Price-Analysis pipeline (fetch_data.py, clean_data.py,
visualize_plotly.py) against its specification.

The DataFrame manipulations are shallowly embedded: a frame is a list of typed
rows together with column-presence flags, numeric cells are `Option ℚ` (with
`none` playing the role of NaN/NaT, whose comparisons are all false in pandas),
and each numbered cleaning step of `clean_petroleum_data` is its own Lean
function, composed in source order.  File contents are modelled as lists of
lines; a zero-byte artifact is the empty list of lines.
-/

deriving instance DecidableEq for Except

attribute [local semireducible] Rat.add Rat.sub Rat.mul Rat.inv

namespace Fuel

/-- A calendar date, as produced by pandas `to_datetime`. -/
structure Date where
  year : Nat
  month : Nat
  day : Nat
deriving DecidableEq, Repr

/-- Interpret a list of characters as a base-10 natural number; fails on the
empty list or on any non-digit character. -/
def digitsToNat (l : List Char) : Option Nat :=
  if l ≠ [] ∧ l.all Char.isDigit then
    some (l.foldl (fun n c => 10 * n + (c.toNat - 48)) 0)
  else none

/-- Model of `pd.to_datetime(s, errors='coerce')` on the annual period strings
of this dataset: a four-digit year string parses to January 1 of that year,
anything else coerces to NaT (here `none`).  Mirrors line 79 of
clean_data.py. -/
def parsePeriod (s : String) : Option Date :=
  match digitsToNat s.data with
  | some y => if s.data.length = 4 then some ⟨y, 1, 1⟩ else none
  | none => none

/-- Model of `pd.to_numeric(s, errors='coerce')` on the decimal literals of
this dataset: optional minus sign, integer part, optional fractional part;
anything else coerces to NaN (here `none`).  Mirrors line 81 of
clean_data.py. -/
def parseValue (s : String) : Option ℚ :=
  match s.data with
  | '-' :: rest => (parseValueAbs rest).map (fun q => -q)
  | l => parseValueAbs l
where
  /-- The unsigned part: digits, optionally a dot and more digits. -/
  parseValueAbs (l : List Char) : Option ℚ :=
    let intPart := l.takeWhile (fun c => c ≠ '.')
    match l.dropWhile (fun c => c ≠ '.') with
    | [] => (digitsToNat intPart).map (fun n => (n : ℚ))
    | _ :: fracPart =>
      match digitsToNat intPart, digitsToNat fracPart with
      | some i, some fr =>
        some ((i : ℚ) + (fr : ℚ) / ((10 : ℚ) ^ fracPart.length))
      | _, _ => none

/-- One raw row as fetched from the EIA API (the fields the cleaner touches;
passthrough fields such as `process` are inert and omitted). -/
structure RawRow where
  period : String
  value : String
  product : String
  duoarea : String
deriving DecidableEq, Repr

/-- A raw DataFrame: the rows plus which of the four columns exist.  pandas
raises `KeyError` when a subscripted column is absent, which the spec's
taxonomy calls a SchemaError. -/
structure Frame where
  hasPeriod : Bool
  hasValue : Bool
  hasProduct : Bool
  hasDuoarea : Bool
  rows : List RawRow
deriving DecidableEq, Repr

/-- A frame holding all four columns, as produced by a non-empty API fetch. -/
def Frame.ofRows (rs : List RawRow) : Frame := ⟨true, true, true, true, rs⟩

/-- Row after line 79 (`period` converted, possibly NaT). -/
structure Row0 where
  period : Option Date
  value : String
  product : String
  duoarea : String
deriving DecidableEq, Repr

/-- Row after line 80 (year filter passed, so `period` is a valid date). -/
structure PRow where
  period : Date
  value : String
  product : String
  duoarea : String
deriving DecidableEq, Repr

/-- Row after line 81 (`value` converted, possibly NaN). -/
structure VRow where
  period : Date
  value : Option ℚ
  product : String
  duoarea : String
deriving DecidableEq, Repr

/-- A fully cleaned output row. -/
structure CleanRow where
  period : Date
  value : ℚ
  product : String
  duoarea : String
deriving DecidableEq, Repr

/-- Errors of the cleaning stage.  `schemaError` is the KeyError raised when a
required column is subscripted but absent (lines 79 and 81); `dataError` is
the KeyError raised by `mode()[0]` on an all-missing categorical column
(line 91). -/
inductive CleanError where
  | schemaError (col : String)
  | dataError
deriving DecidableEq, Repr

/-- The processing stages of `clean_petroleum_data`, in source order.  The
cleaner returns the list of stages that completed before it returned or
raised, so that ordering claims ("fails before any processing") can be
stated. -/
inductive Stage where
  | convertPeriod
  | filterYears
  | convertValue
  | dropDuplicates
  | imputeNumeric
  | imputeCategorical
  | formatText
  | removeOutliers
  | remapCodes
  | persistStep
deriving DecidableEq, Repr

/-- Insert into a sorted list (ascending). -/
def insertSorted (x : ℚ) : List ℚ → List ℚ
  | [] => [x]
  | y :: ys => if x ≤ y then x :: y :: ys else y :: insertSorted x ys

/-- Sort a list of rationals ascending (insertion sort). -/
def sortVals (l : List ℚ) : List ℚ := l.foldr insertSorted []

/-- pandas `Series.quantile(q)` with the default linear interpolation, on a
non-empty list: with sorted values x₀ ≤ … ≤ x₍ₙ₋₁₎ and h = (n−1)·q, the
result is x₍₊₎ interpolated between positions ⌊h⌋ and ⌊h⌋+1. -/
def quantile (xs : List ℚ) (q : ℚ) : ℚ :=
  let s := sortVals xs
  let n := s.length
  let h : ℚ := ((n : ℚ) - 1) * q
  let lo : Nat := (Rat.floor h).toNat
  let x0 := s.getD lo 0
  let x1 := s.getD (lo + 1) x0
  x0 + (h - (lo : ℚ)) * (x1 - x0)

/-- pandas quantile over a column with missing entries: computed over the
present values, NaN (`none`) when every entry is missing. -/
def quantileOpt (xs : List (Option ℚ)) (q : ℚ) : Option ℚ :=
  let present := xs.filterMap id
  if present.isEmpty then none else some (quantile present q)

/-- pandas `median()` is the 0.5 quantile with linear interpolation. -/
def medianOpt (xs : List (Option ℚ)) : Option ℚ := quantileOpt xs (1 / 2)

/-- Line 79: `df['period'] = pd.to_datetime(df['period'], errors='coerce')`. -/
def stepConvertPeriod (rows : List RawRow) : List Row0 :=
  rows.map (fun r => ⟨parsePeriod r.period, r.value, r.product, r.duoarea⟩)

/-- Line 80: `df = df[df['period'].dt.year.between(1990, 2025)]`.  A NaT
period has no year, so `between` is false and the row is dropped. -/
def stepFilterYears (rows : List Row0) : List PRow :=
  rows.filterMap (fun r =>
    match r.period with
    | some d =>
      if 1990 ≤ d.year ∧ d.year ≤ 2025 then
        some ⟨d, r.value, r.product, r.duoarea⟩
      else none
    | none => none)

/-- Line 81: `df['value'] = pd.to_numeric(df['value'], errors='coerce')`. -/
def stepParseValue (rows : List PRow) : List VRow :=
  rows.map (fun r => ⟨r.period, parseValue r.value, r.product, r.duoarea⟩)

/-- The tuple of cell values `drop_duplicates` compares: all columns present
in the frame. -/
def dedupKey (hasProduct hasDuoarea : Bool) (r : VRow) :
    Date × Option ℚ × Option String × Option String :=
  (r.period, r.value,
   if hasProduct then some r.product else none,
   if hasDuoarea then some r.duoarea else none)

/-- Keep the first row bearing each key, in order (pandas
`drop_duplicates(keep='first')`). -/
def dedupGo {β : Type} [DecidableEq β] (key : VRow → β) :
    List β → List VRow → List VRow
  | _, [] => []
  | seen, a :: as =>
    if key a ∈ seen then dedupGo key seen as
    else a :: dedupGo key (key a :: seen) as

/-- Line 84: `df.drop_duplicates(inplace=True)`. -/
def stepDedup (hasProduct hasDuoarea : Bool) (rows : List VRow) : List VRow :=
  dedupGo (dedupKey hasProduct hasDuoarea) [] rows

/-- Lines 87-88: fill missing numeric entries with the column median.  The
only numeric column of this schema is `value`; when the median is itself NaN
(all entries missing) `fillna` is a no-op. -/
def stepImputeValue (rows : List VRow) : List VRow :=
  let med := medianOpt (rows.map (fun r => r.value))
  rows.map (fun r =>
    { r with value := match r.value with | some v => some v | none => med })

/-- The working set reaching line 91's categorical imputation: converted,
year-filtered, deduplicated, numerically imputed rows (lines 79-88).  Lines
90-91 themselves change nothing on this schema — `period`, `product` and
`duoarea` cells are all present — but `mode()[0]` raises on an empty frame.
Lines 94-96 (text formatting) are a no-op: the formatted columns
`area-name`, `product-name`, `process-name` are not in this schema, and the
source guards each with `if col in df.columns`. -/
def workingSet (f : Frame) : List VRow :=
  stepImputeValue
    (stepDedup f.hasProduct f.hasDuoarea
      (stepParseValue (stepFilterYears (stepConvertPeriod f.rows))))

/-- Lines 99-100: `Q1, Q3 = df['value'].quantile([0.25, 0.75])` and the
1.5·IQR fences.  `none` when the value column is all-NaN. -/
def outlierBoundsOf (rows : List VRow) : Option (ℚ × ℚ) :=
  match quantileOpt (rows.map (fun r => r.value)) (1 / 4),
        quantileOpt (rows.map (fun r => r.value)) (3 / 4) with
  | some q1, some q3 =>
    some (q1 - 3 / 2 * (q3 - q1), q3 + 3 / 2 * (q3 - q1))
  | _, _ => none

/-- Line 101: keep the rows whose value is within the fences.  In pandas a
comparison against NaN is false, so a NaN value — or NaN bounds — drops the
row; the kept rows therefore all carry present values, extracted here. -/
def stepOutlier (rows : List VRow) : List CleanRow :=
  match outlierBoundsOf rows with
  | some (lo, hi) =>
    rows.filterMap (fun r =>
      match r.value with
      | some v =>
        if lo ≤ v ∧ v ≤ hi then some ⟨r.period, v, r.product, r.duoarea⟩
        else none
      | none => none)
  | none => []

/-- Lines 116-123: the fixed product-code lookup table. -/
def product_map (code : String) : Option String :=
  if code = "EPD2D" then some "No 2 Diesel"
  else if code = "EPD2DXL0" then some "Ultra-Low Sulfur Diesel (0–15 ppm)"
  else if code = "EPM0" then some "Total Gasoline"
  else if code = "EPMR" then some "Regular Gasoline"
  else if code = "EPMP" then some "Premium Gasoline"
  else if code = "EPM0R" then some "Reformulated Motor Gasoline"
  else none

/-- Lines 104-115: the fixed region-code lookup table. -/
def area_map (code : String) : Option String :=
  if code = "NUS" then some "United States"
  else if code = "R10" then some "PADD 1 (East Coast)"
  else if code = "R1X" then some "PADD 1A (New England)"
  else if code = "R1Y" then some "PADD 1B (Central Atlantic)"
  else if code = "R20" then some "PADD 2 (Midwest)"
  else if code = "R30" then some "PADD 3 (Gulf Coast)"
  else if code = "R40" then some "PADD 4 (Rocky Mountain)"
  else if code = "R50" then some "PADD 5 (West Coast)"
  else if code = "R5XCA" then some "PADD 5 (Except California)"
  else if code = "SCA" then some "California"
  else none

/-- Lines 124-127: `df['product'].map(product_map).fillna(df['product'])`
keeps an unmapped product code, while
`df['duoarea'].map(area_map).fillna("Unknown")` sends an unmapped region
code to the sentinel.  Each is guarded by the column's presence. -/
def mapRow (hasProduct hasDuoarea : Bool) (r : CleanRow) : CleanRow :=
  { r with
    product := if hasProduct then (product_map r.product).getD r.product
               else r.product,
    duoarea := if hasDuoarea then (area_map r.duoarea).getD "Unknown"
               else r.duoarea }

/-- The code-mapping step applied to the whole table. -/
def stepRemap (hasProduct hasDuoarea : Bool) (rows : List CleanRow) :
    List CleanRow :=
  rows.map (mapRow hasProduct hasDuoarea)

/-- All ten stages, completed on a successful run. -/
def allStages : List Stage :=
  [.convertPeriod, .filterYears, .convertValue, .dropDuplicates,
   .imputeNumeric, .imputeCategorical, .formatText, .removeOutliers,
   .remapCodes, .persistStep]

/-- `clean_petroleum_data` (clean_data.py lines 78-140), returning the list
of stages that completed before the function returned or raised, together
with the result.  Line 79 subscripts `df['period']` (KeyError when absent,
before anything ran); line 81 subscripts `df['value']` (KeyError when
absent, after the period conversion and year filter of lines 79-80); line
91's `mode()[0]` raises when the working set is empty, after the numeric
imputation of line 88. -/
def clean_petroleum_data (f : Frame) :
    List Stage × Except CleanError (List CleanRow) :=
  if f.hasPeriod = false then
    ([], .error (.schemaError "period"))
  else if f.hasValue = false then
    ([.convertPeriod, .filterYears], .error (.schemaError "value"))
  else if (workingSet f).isEmpty then
    ([.convertPeriod, .filterYears, .convertValue, .dropDuplicates,
      .imputeNumeric], .error .dataError)
  else
    (allStages,
     .ok (stepRemap f.hasProduct f.hasDuoarea (stepOutlier (workingSet f))))

/-- Serialization of one cleaned row as a CSV line (schematic rendering of
the cell values; only presence or absence of lines matters to the claims). -/
def csvLine (r : CleanRow) : String :=
  String.intercalate ","
    [toString r.period.year ++ "-" ++ toString r.period.month ++ "-" ++
       toString r.period.day,
     toString r.value, r.product, r.duoarea]

/-- `df.to_csv(path, index=False)` on the cleaned frame: a header line then
one line per row — a header-only file when the frame has no rows. -/
def cleanCsv (t : List CleanRow) : List String :=
  "period,value,product,duoarea" :: t.map csvLine

/-- Lines 133-139: the file content persisted at the fixed processed-data
path.  Line 135 writes the CSV unconditionally; line 137 rewrites the same
content when the frame is non-empty; line 139's `Path.touch()` does not
truncate an existing file, so the empty branch keeps what line 135 wrote. -/
def persist_clean (t : List CleanRow) : List String :=
  let written := cleanCsv t
  if t.isEmpty = false then cleanCsv t
  else written

/-- The artifact left at the processed-data path by a successful clean. -/
def clean_artifact (f : Frame) : Except CleanError (List String) :=
  ((clean_petroleum_data f).2).map persist_clean

/-- The HTTP response the fetcher receives: status code and the JSON
envelope, whose `response` object and inner `data` array may each be
absent. -/
structure ApiResponse where
  status : Nat
  hasResponse : Bool
  hasData : Bool
  data : List RawRow
deriving DecidableEq

/-- Error of the fetching stage: the RuntimeError of fetch_data.py line 98,
carrying the HTTP status code. -/
inductive FetchError where
  | requestError (status : Nat)
deriving DecidableEq

/-- Line 100: `response.json().get("response", {}).get("data", [])` — the
empty list when either level of the envelope is absent. -/
def responseData (resp : ApiResponse) : List RawRow :=
  if resp.hasResponse && resp.hasData then resp.data else []

/-- `df.to_csv` on the raw frame built from the data rows.
`pd.DataFrame([])` has no columns, so its CSV is a single blank line. -/
def rawCsv (rows : List RawRow) : List String :=
  if rows.isEmpty then [""]
  else "period,value,product,duoarea" ::
    rows.map (fun r =>
      String.intercalate "," [r.period, r.value, r.product, r.duoarea])

/-- `fetch_petroleum_data` (fetch_data.py lines 50-114): raise on a non-200
status (line 97-98); otherwise extract the data array, persist it (line 108
writes, lines 109-112 rewrite the same content or touch without truncating)
and return the rows — an empty frame when the data array was empty
(line 114). -/
def fetch_petroleum_data (resp : ApiResponse) :
    Except FetchError (List String × List RawRow) :=
  if resp.status ≠ 200 then .error (.requestError resp.status)
  else
    let data := responseData resp
    let artifact := rawCsv data
    .ok (artifact, if data.isEmpty then [] else data)

/-- `pd.DataFrame(list_of_dicts)`, as the orchestrator hands the fetch result
to the cleaner: an empty list yields a frame with no columns at all. -/
def frameOfFetched (rows : List RawRow) : Frame :=
  if rows.isEmpty then ⟨false, false, false, false, []⟩
  else ⟨true, true, true, true, rows⟩

/-- The cleaned table as the chart renderers see it: the cleaner's rows plus
an optional extra `year` column. -/
structure ChartFrame where
  rows : List CleanRow
  yearCol : Option (List String)
deriving DecidableEq

/-- `create_all_charts` (visualize_plotly.py): its only mutation of the
caller's frame is line 76,
`df['year'] = pd.to_datetime(df['period']).dt.year.astype(str)`, which adds
(or overwrites) the `year` column in place; every chart built on lines
56-112 reads `df` without writing it. -/
def create_all_charts (df : ChartFrame) : ChartFrame :=
  { df with yearCol := some (df.rows.map (fun r => toString r.period.year)) }

/-- The 1.5·IQR lower fence of a plain value list. -/
def iqrLo (vs : List ℚ) : ℚ :=
  quantile vs (1 / 4) - 3 / 2 * (quantile vs (3 / 4) - quantile vs (1 / 4))

/-- The 1.5·IQR upper fence of a plain value list. -/
def iqrHi (vs : List ℚ) : ℚ :=
  quantile vs (3 / 4) + 3 / 2 * (quantile vs (3 / 4) - quantile vs (1 / 4))

/-! Concrete inputs used by counterexamples and witnesses. -/

/-- The spec's scenario row. -/
def scenarioFrame : Frame := Frame.ofRows [⟨"2025", "3.459", "EPMR", "NUS"⟩]

/-- The cleaned record the scenario is required to produce. -/
def scenarioOut : CleanRow :=
  ⟨⟨2025, 1, 1⟩, 3459 / 1000, "Regular Gasoline", "United States"⟩

/-- Six rows, distinct in `product`, with values 0,0,0,0,1,10: the first
IQR pass (fences computed over all six values) drops only the 10, and the
surviving set 0,0,0,0,1 has Q1 = Q3 = 0, putting the surviving 1 outside its
own fences. -/
def sixRowFrame : Frame := Frame.ofRows
  [⟨"2025", "0", "A", "NUS"⟩, ⟨"2025", "0", "B", "NUS"⟩,
   ⟨"2025", "0", "C", "NUS"⟩, ⟨"2025", "0", "D", "NUS"⟩,
   ⟨"2025", "1", "E", "NUS"⟩, ⟨"2025", "10", "F", "NUS"⟩]

/-- The cleaned output of `sixRowFrame`. -/
def sixRowOut : List CleanRow :=
  [⟨⟨2025, 1, 1⟩, 0, "A", "United States"⟩,
   ⟨⟨2025, 1, 1⟩, 0, "B", "United States"⟩,
   ⟨⟨2025, 1, 1⟩, 0, "C", "United States"⟩,
   ⟨⟨2025, 1, 1⟩, 0, "D", "United States"⟩,
   ⟨⟨2025, 1, 1⟩, 1, "E", "United States"⟩]

/-- Two rows that differ only in their (unrecognized) region codes: both
codes are mapped to the sentinel "Unknown", so the cleaned output holds the
same record twice. -/
def pairFrame : Frame :=
  Frame.ofRows [⟨"2025", "3", "P", "XXX"⟩, ⟨"2025", "3", "P", "YYY"⟩]

/-- The record `pairFrame` produces twice. -/
def dupRow : CleanRow := ⟨⟨2025, 1, 1⟩, 3, "P", "Unknown"⟩

/-- A frame with the `value` column absent. -/
def noValueFrame : Frame :=
  ⟨true, false, true, true, [⟨"2025", "3.459", "EPMR", "NUS"⟩]⟩

/-- A frame with the `period` column absent. -/
def noPeriodFrame : Frame :=
  ⟨false, true, true, true, [⟨"2025", "3.459", "EPMR", "NUS"⟩]⟩

/-- A 200 response whose data array is present but empty. -/
def emptyOkResponse : ApiResponse := ⟨200, true, true, []⟩

/-- A 200 response whose envelope lacks the `data` array. -/
def noDataResponse : ApiResponse := ⟨200, true, false, [⟨"2025", "3", "P", "NUS"⟩]⟩

/-- A single row whose value is unparseable: it coerces to NaN, the median
of the (empty) set of present values is itself NaN so imputation leaves it,
and the NaN quantile fences drop the row — a non-empty input whose cleaned
result is empty. -/
def allNanFrame : Frame := Frame.ofRows [⟨"2025", "abc", "EPMR", "NUS"⟩]

/-- A concrete chart-renderer input. -/
def chartFrameW : ChartFrame := ⟨[scenarioOut], none⟩

/-- A concrete row for the mapping-step witness: unrecognized product code,
recognized region code. -/
def mapRowW : CleanRow := ⟨⟨2025, 1, 1⟩, 3, "ZZZ", "NUS"⟩

/-! Helper lemmas: provenance of rows through the cleaning steps. -/

lemma mem_dedupGo_not_seen {β : Type} [DecidableEq β] (key : VRow → β) :
    ∀ (l : List VRow) (seen : List β) (b : VRow),
      b ∈ dedupGo key seen l → key b ∉ seen := by
  intro l
  induction l with
  | nil => intro seen b hb; simp [dedupGo] at hb
  | cons a as ih =>
    intro seen b hb
    simp only [dedupGo] at hb
    by_cases h : key a ∈ seen
    · rw [if_pos h] at hb
      exact ih seen b hb
    · rw [if_neg h] at hb
      rcases List.mem_cons.mp hb with rfl | hb2
      · exact h
      · intro hseen
        exact ih _ b hb2 (List.mem_cons_of_mem _ hseen)

lemma pairwise_dedupGo {β : Type} [DecidableEq β] (key : VRow → β) :
    ∀ (l : List VRow) (seen : List β),
      (dedupGo key seen l).Pairwise (fun a b => key a ≠ key b) := by
  intro l
  induction l with
  | nil => intro seen; simp [dedupGo]
  | cons a as ih =>
    intro seen
    simp only [dedupGo]
    by_cases h : key a ∈ seen
    · rw [if_pos h]; exact ih seen
    · rw [if_neg h]
      refine List.Pairwise.cons ?_ (ih _)
      intro b hb heq
      exact mem_dedupGo_not_seen key as (key a :: seen) b hb
        (by rw [← heq]; exact List.mem_cons_self _ _)

lemma mem_dedupGo_sub {β : Type} [DecidableEq β] (key : VRow → β) :
    ∀ (l : List VRow) (seen : List β) (b : VRow),
      b ∈ dedupGo key seen l → b ∈ l := by
  intro l
  induction l with
  | nil => intro seen b hb; simp [dedupGo] at hb
  | cons a as ih =>
    intro seen b hb
    simp only [dedupGo] at hb
    by_cases h : key a ∈ seen
    · rw [if_pos h] at hb
      exact List.mem_cons_of_mem _ (ih seen b hb)
    · rw [if_neg h] at hb
      rcases List.mem_cons.mp hb with rfl | hb2
      · exact List.mem_cons_self _ _
      · exact List.mem_cons_of_mem _ (ih _ b hb2)

lemma mem_stepRemap {hp hd : Bool} {r : CleanRow} {l : List CleanRow}
    (h : r ∈ stepRemap hp hd l) : ∃ a ∈ l, r = mapRow hp hd a := by
  rcases List.mem_map.mp h with ⟨a, ha, rfl⟩
  exact ⟨a, ha, rfl⟩

lemma mem_stepOutlier {r : CleanRow} {l : List VRow} (h : r ∈ stepOutlier l) :
    (∃ a ∈ l, a.period = r.period ∧ a.value = some r.value) ∧
    ∃ lo hi, outlierBoundsOf l = some (lo, hi) ∧ lo ≤ r.value ∧ r.value ≤ hi := by
  unfold stepOutlier at h
  cases hb : outlierBoundsOf l with
  | none => rw [hb] at h; simp at h
  | some p =>
    obtain ⟨lo, hi⟩ := p
    rw [hb] at h
    rcases List.mem_filterMap.mp h with ⟨a, ha, hga⟩
    split at hga
    · rename_i v hv
      split at hga
      · rename_i hcond
        obtain rfl := Option.some.inj hga
        exact ⟨⟨a, ha, rfl, hv⟩, lo, hi, rfl, hcond.1, hcond.2⟩
      · exact absurd hga (by simp)
    · exact absurd hga (by simp)

lemma mem_stepImputeValue {r : VRow} {l : List VRow}
    (h : r ∈ stepImputeValue l) : ∃ a ∈ l, a.period = r.period := by
  simp only [stepImputeValue] at h
  rcases List.mem_map.mp h with ⟨a, ha, rfl⟩
  exact ⟨a, ha, rfl⟩

lemma mem_stepParseValue {r : VRow} {l : List PRow}
    (h : r ∈ stepParseValue l) : ∃ a ∈ l, a.period = r.period := by
  rcases List.mem_map.mp h with ⟨a, ha, rfl⟩
  exact ⟨a, ha, rfl⟩

lemma mem_stepFilterYears {r : PRow} {l : List Row0}
    (h : r ∈ stepFilterYears l) :
    (∃ a ∈ l, a.period = some r.period) ∧
    1990 ≤ r.period.year ∧ r.period.year ≤ 2025 := by
  unfold stepFilterYears at h
  rcases List.mem_filterMap.mp h with ⟨a, ha, hga⟩
  split at hga
  · rename_i d hp
    split at hga
    · rename_i hc
      obtain rfl := Option.some.inj hga
      exact ⟨⟨a, ha, hp⟩, hc.1, hc.2⟩
    · exact absurd hga (by simp)
  · exact absurd hga (by simp)

lemma mem_stepConvertPeriod {r : Row0} {l : List RawRow}
    (h : r ∈ stepConvertPeriod l) :
    ∃ x ∈ l, parsePeriod x.period = r.period := by
  rcases List.mem_map.mp h with ⟨x, hx, rfl⟩
  exact ⟨x, hx, rfl⟩

/-- On success the cleaned output is exactly the remapped, outlier-filtered
working set. -/
lemma clean_ok_shape {f : Frame} {out : List CleanRow}
    (hok : (clean_petroleum_data f).2 = .ok out) :
    out = stepRemap f.hasProduct f.hasDuoarea (stepOutlier (workingSet f)) := by
  unfold clean_petroleum_data at hok
  by_cases h1 : f.hasPeriod = false
  · rw [if_pos h1] at hok; simp at hok
  · rw [if_neg h1] at hok
    by_cases h2 : f.hasValue = false
    · rw [if_pos h2] at hok; simp at hok
    · rw [if_neg h2] at hok
      by_cases h3 : (workingSet f).isEmpty = true
      · rw [if_pos h3] at hok; simp at hok
      · rw [if_neg h3] at hok
        exact (Except.ok.inj hok).symm

/-- C3: every record of a successfully cleaned output carries a period that
is a valid date parsed from some input row, with year in [1990, 2025]; an
input row whose period fails to parse, or parses outside that interval
(such as "1850"), contributes no output row, since every output period is
the in-range parse of its originating input row. -/
theorem clean_period_year_in_range (f : Frame) (out : List CleanRow)
    (hok : (clean_petroleum_data f).2 = .ok out) :
    ∀ r ∈ out, (1990 ≤ r.period.year ∧ r.period.year ≤ 2025) ∧
      ∃ x ∈ f.rows, parsePeriod x.period = some r.period := by
  intro r hr
  rw [clean_ok_shape hok] at hr
  rcases mem_stepRemap hr with ⟨a6, ha6, rfl⟩
  rcases (mem_stepOutlier ha6).1 with ⟨a5, ha5, hp5, _⟩
  unfold workingSet at ha5
  rcases mem_stepImputeValue ha5 with ⟨a4, ha4, hp4⟩
  have ha4b := mem_dedupGo_sub _ _ _ _ ha4
  rcases mem_stepParseValue ha4b with ⟨a3, ha3, hp3⟩
  rcases mem_stepFilterYears ha3 with ⟨⟨a2, ha2, hp2⟩, hy1, hy2⟩
  rcases mem_stepConvertPeriod ha2 with ⟨x, hx, hpx⟩
  have hper : a3.period = (mapRow f.hasProduct f.hasDuoarea a6).period := by
    rw [hp3, hp4, hp5]; rfl
  constructor
  · rw [← hper]; exact ⟨hy1, hy2⟩
  · exact ⟨x, hx, by rw [hpx, hp2, hper]⟩

/-- Witness for C3's theorem at the scenario row. -/
theorem clean_period_year_in_range_w :
    (1990 ≤ scenarioOut.period.year ∧ scenarioOut.period.year ≤ 2025) ∧
    ∃ x ∈ scenarioFrame.rows, parsePeriod x.period = some scenarioOut.period :=
  clean_period_year_in_range scenarioFrame [scenarioOut] (by decide)
    scenarioOut (by decide)

/-- C1 (counterexample): the IQR outlier filter of the cleaner is not
idempotent.  On `sixRowFrame` (values 0,0,0,0,1,10) the cleaned output is
exactly `sixRowOut` (values 0,0,0,0,1), yet that output holds a record —
the value 1 — lying outside the 1.5·IQR fences computed over the cleaned
output's own value distribution (whose Q1 = Q3 = 0). -/
theorem iqr_filter_not_idempotent :
    (clean_petroleum_data sixRowFrame).2 = .ok sixRowOut ∧
    ¬ (∀ r ∈ sixRowOut, iqrLo (sixRowOut.map CleanRow.value) ≤ r.value ∧
        r.value ≤ iqrHi (sixRowOut.map CleanRow.value)) := by decide

/-- C1 (amended): every record of a successfully cleaned output has its
value within the 1.5·IQR fences that lines 99-101 compute over the working
set just before the filter (the deduplicated, imputed set), not over the
cleaned output's own distribution. -/
theorem clean_value_within_prefilter_fences (f : Frame) (out : List CleanRow)
    (hok : (clean_petroleum_data f).2 = .ok out) :
    ∀ r ∈ out, ∃ lo hi, outlierBoundsOf (workingSet f) = some (lo, hi) ∧
      lo ≤ r.value ∧ r.value ≤ hi := by
  intro r hr
  rw [clean_ok_shape hok] at hr
  rcases mem_stepRemap hr with ⟨a, ha, rfl⟩
  exact (mem_stepOutlier ha).2

/-- Witness for C1's amended theorem at the scenario row. -/
theorem clean_value_within_prefilter_fences_w :
    ∃ lo hi, outlierBoundsOf (workingSet scenarioFrame) = some (lo, hi) ∧
      lo ≤ scenarioOut.value ∧ scenarioOut.value ≤ hi :=
  clean_value_within_prefilter_fences scenarioFrame [scenarioOut] (by decide)
    scenarioOut (by decide)

/-- C2: cleaning the single input row (period "2025", value "3.459",
product "EPMR", duoarea "NUS") yields exactly the record (period
2025-01-01, value 3.459, product "Regular Gasoline", duoarea
"United States"). -/
theorem clean_scenario_row :
    (clean_petroleum_data scenarioFrame).2 = .ok [scenarioOut] := by decide

/-- C4: in the code-mapping step of the cleaner, a region code which is a
key of the region table maps to exactly its name, a region code absent from
the table maps to the sentinel "Unknown", a product code which is a key of
the product table maps to exactly its name, and a product code absent from
the table passes through unchanged. -/
theorem mapping_step_lookup (r : CleanRow) :
    (∀ n, area_map r.duoarea = some n → (mapRow true true r).duoarea = n) ∧
    (area_map r.duoarea = none → (mapRow true true r).duoarea = "Unknown") ∧
    (∀ n, product_map r.product = some n → (mapRow true true r).product = n) ∧
    (product_map r.product = none → (mapRow true true r).product = r.product) := by
  refine ⟨fun n h => ?_, fun h => ?_, fun n h => ?_, fun h => ?_⟩ <;>
    simp [mapRow, h]

/-- Witness for C4's theorem: "NUS" maps to its name, the unknown product
code "ZZZ" passes through. -/
theorem mapping_step_lookup_w :
    (mapRow true true mapRowW).duoarea = "United States" ∧
    (mapRow true true mapRowW).product = "ZZZ" :=
  ⟨(mapping_step_lookup mapRowW).1 "United States" rfl,
   (mapping_step_lookup mapRowW).2.2.2 rfl⟩

/-- C5 (counterexample): two distinct input rows — differing only in their
unrecognized region codes — both survive deduplication and are then mapped
to the same record (duoarea "Unknown"), so the cleaned output holds the
same record twice. -/
theorem distinct_rows_collide_in_output :
    pairFrame.rows.Pairwise (· ≠ ·) ∧
    (clean_petroleum_data pairFrame).2 = .ok [dupRow, dupRow] := by decide

/-- C5 (amended): at the deduplication step itself (line 84, after type
conversion, before imputation and mapping) no row occurs twice: the
deduplicated working set is pairwise distinct.  Later steps can still merge
distinct rows, as the counterexample shows. -/
theorem dedup_step_removes_duplicates (f : Frame) :
    (stepDedup f.hasProduct f.hasDuoarea
      (stepParseValue (stepFilterYears (stepConvertPeriod f.rows)))).Pairwise
      (· ≠ ·) := by
  have h := pairwise_dedupGo (dedupKey f.hasProduct f.hasDuoarea)
    (stepParseValue (stepFilterYears (stepConvertPeriod f.rows))) []
  exact h.imp fun hk heq => hk (congrArg _ heq)

/-- Witness for C5's amended theorem at the colliding pair. -/
theorem dedup_step_removes_duplicates_w :
    (stepDedup pairFrame.hasProduct pairFrame.hasDuoarea
      (stepParseValue (stepFilterYears (stepConvertPeriod pairFrame.rows)))).Pairwise
      (· ≠ ·) :=
  dedup_step_removes_duplicates pairFrame

/-- C6 (counterexample): on a frame lacking only the `value` column the
cleaner does fail with the SchemaError for "value", but not before any
processing: the period conversion and the year filter (lines 79-80) have
already completed when line 81 raises. -/
theorem value_schema_error_after_conversion :
    (clean_petroleum_data noValueFrame).2 = .error (.schemaError "value") ∧
    (clean_petroleum_data noValueFrame).1 ≠ [] := by decide

/-- C6 (amended): a frame missing the `period` column fails with the
SchemaError for "period" before any stage has run; a frame with `period`
but missing `value` fails with the SchemaError for "value" after exactly
the period conversion and year filter, before imputation, outlier removal,
mapping or persistence. -/
theorem schema_error_position (f : Frame) :
    (f.hasPeriod = false →
      clean_petroleum_data f = ([], .error (.schemaError "period"))) ∧
    (f.hasPeriod = true → f.hasValue = false →
      clean_petroleum_data f =
        ([.convertPeriod, .filterYears], .error (.schemaError "value"))) := by
  constructor
  · intro h
    unfold clean_petroleum_data
    rw [if_pos h]
  · intro hp hv
    unfold clean_petroleum_data
    rw [if_neg (by simp [hp]), if_pos hv]

/-- Witness for C6's amended theorem at frames missing each column. -/
theorem schema_error_position_w :
    clean_petroleum_data noPeriodFrame = ([], .error (.schemaError "period")) ∧
    clean_petroleum_data noValueFrame =
      ([.convertPeriod, .filterYears], .error (.schemaError "value")) :=
  ⟨(schema_error_position noPeriodFrame).1 rfl,
   (schema_error_position noValueFrame).2 rfl rfl⟩

/-- C7 (counterexample): with zero API rows the fetch succeeds — persisting
a blank-line artifact and returning an empty result — but the cleaning step
then raises (the empty frame has no `period` column), so no cleaned output
exists at all, contrary to the claim that the pipeline raises no error. -/
theorem empty_fetch_downstream_raises :
    fetch_petroleum_data emptyOkResponse = .ok ([""], []) ∧
    ∀ out : List CleanRow,
      (clean_petroleum_data (frameOfFetched [])).2 ≠ .ok out := by
  refine ⟨by decide, fun out h => ?_⟩
  have he : (clean_petroleum_data (frameOfFetched [])).2 =
      .error (.schemaError "period") := by decide
  rw [he] at h
  exact Except.noConfusion h

/-- C7 (amended): on a 200 response with an absent or empty data array the
fetcher persists the (blank) raw artifact and returns an empty result
without raising, but handing that empty, columnless result to the cleaner
raises the SchemaError for the missing `period` column. -/
theorem empty_fetch_pipeline (resp : ApiResponse) (h200 : resp.status = 200)
    (hempty : responseData resp = []) :
    fetch_petroleum_data resp = .ok (rawCsv [], []) ∧
    (clean_petroleum_data (frameOfFetched [])).2 =
      .error (.schemaError "period") := by
  constructor
  · unfold fetch_petroleum_data
    rw [if_neg (by simp [h200]), hempty]
    rfl
  · decide

/-- Witness for C7's amended theorem at the empty-data 200 response. -/
theorem empty_fetch_pipeline_w :
    fetch_petroleum_data emptyOkResponse = .ok (rawCsv [], []) ∧
    (clean_petroleum_data (frameOfFetched [])).2 =
      .error (.schemaError "period") :=
  empty_fetch_pipeline emptyOkResponse rfl rfl

/-- C8: evaluation at the failing input.  The row (period "2025", value
"abc") cleans to an empty result set, and the artifact the persistence step
leaves for an empty result is the header-only CSV — line 135 wrote it
unconditionally and `touch()` does not truncate — never the zero-byte file
the specification (and the module's own docstring) call for. -/
theorem empty_result_persists_header_only :
    (clean_petroleum_data allNanFrame).2 = .ok [] ∧
    clean_artifact allNanFrame = .ok ["period,value,product,duoarea"] ∧
    persist_clean [] ≠ ([] : List String) := by decide

/-- C9: the fetcher fails with the RequestError carrying the HTTP status
code exactly when the status is not 200 (the code's notion of non-success),
and on a 200 response whose data array is absent or empty it returns an
empty result set rather than an error. -/
theorem fetch_status_iff (resp : ApiResponse) :
    (fetch_petroleum_data resp = .error (.requestError resp.status) ↔
      resp.status ≠ 200) ∧
    (resp.status = 200 → responseData resp = [] →
      fetch_petroleum_data resp = .ok (rawCsv [], [])) := by
  refine ⟨⟨fun h heq => ?_, fun h => ?_⟩, fun h200 hempty => ?_⟩
  · unfold fetch_petroleum_data at h
    rw [if_neg (by simp [heq])] at h
    exact Except.noConfusion h
  · unfold fetch_petroleum_data
    rw [if_pos h]
  · unfold fetch_petroleum_data
    rw [if_neg (by simp [h200]), hempty]
    rfl

/-- Witness for C9's theorem at a 200 response lacking the data array. -/
theorem fetch_status_iff_w :
    (fetch_petroleum_data noDataResponse =
        .error (.requestError noDataResponse.status) ↔
      noDataResponse.status ≠ 200) ∧
    fetch_petroleum_data noDataResponse = .ok (rawCsv [], []) :=
  ⟨(fetch_status_iff noDataResponse).1,
   (fetch_status_iff noDataResponse).2 rfl rfl⟩

/-- C10: the interactive chart renderer is not read-only on its input — it
adds (or overwrites) the `year` column on the caller's cleaned table, the
string of each period's year, and leaves every other column unchanged. -/
theorem create_all_charts_frame_effect (df : ChartFrame) :
    (create_all_charts df).rows = df.rows ∧
    (create_all_charts df).yearCol =
      some (df.rows.map (fun r => toString r.period.year)) :=
  ⟨rfl, rfl⟩

/-- Witness for C10's theorem at a one-row chart frame. -/
theorem create_all_charts_frame_effect_w :
    (create_all_charts chartFrameW).rows = chartFrameW.rows ∧
    (create_all_charts chartFrameW).yearCol =
      some (chartFrameW.rows.map (fun r => toString r.period.year)) :=
  create_all_charts_frame_effect chartFrameW

end Fuel
